import Mathlib

set_option maxHeartbeats 1600000

/-!
# DiscordRPG: verification of the item / adventure / battle engine

Shallow embedding of the parts of the DiscordRPG bot that the claims
concern, translated from the Python sources:

* `classes/items.py` — item stats, rarity classifier, generator, reroll;
* `cogs/blacksmith.py` — the upgrade/dismantle subsystem's duplicate
  rarity classifier and the upgrade transform;
* `cogs/adventure.py` — adventure success-chance formula;
* `cogs/autoplay.py` — battle power, 1v1 and team battle simulation,
  the adventure-completion handler `level_up_check`, the adventure
  creation loop `auto_adventure_loop`;
* `cogs/epic_adventures.py` — epic/legendary adventure creation
  (`auto_epic_adventures`) and completion (`check_epic_completions`);
* `cogs/combat.py` — the manual-combat power calculator and simulator.

Python floats appearing in the sources (stat ratios such as `0.8`,
the upgrade step `0.05`, jitter bounds such as `0.85`) are modelled as
exact rationals; Python `int(...)` truncation is modelled by `pyInt`.
-/

/-- Python `int(...)` applied to an exact value: truncation toward zero. -/
def pyInt (q : ℚ) : ℤ := if 0 ≤ q then ⌊q⌋ else -⌊-q⌋


/-- The item types of `classes/items.py` (`class ItemType(Enum)`):
sixteen weapons and five armor pieces. -/
inductive ItemType
  | sword | shield | axe | bow | spear | wand | dagger | knife
  | hammer | staff | mace | crossbow | greatsword | halberd | katana | scythe
  | helmet | chestplate | leggings | gauntlets | boots
deriving DecidableEq

/-- The rarity tiers of `classes/items.py` (`class ItemRarity(Enum)`). -/
inductive ItemRarity
  | common | uncommon | rare | magic | legendary | mythic | divine
deriving DecidableEq

/-- Numeric order of the tiers, common = 0 … divine = 6. -/
def ItemRarity.idx : ItemRarity → ℕ
  | .common => 0
  | .uncommon => 1
  | .rare => 2
  | .magic => 3
  | .legendary => 4
  | .mythic => 5
  | .divine => 6

/-- `ItemRarity.get_stat_range`: the (min, max) stat total of a tier. -/
def ItemRarity.statRange : ItemRarity → ℤ × ℤ
  | .common => (1, 9)
  | .uncommon => (10, 19)
  | .rare => (20, 29)
  | .magic => (30, 39)
  | .legendary => (40, 44)
  | .mythic => (45, 49)
  | .divine => (50, 50)

/-- An item record (`class Item`). Identity, owner, name, value, hand and
slot are omitted: no claim depends on them. Integer stat fields are `ℤ`
(Python ints); `luck_bonus` and `crit_bonus` are stored as fractions
(Python floats), modelled as exact rationals. -/
structure Item where
  itemType : ItemType
  damage : ℤ
  armor : ℤ
  healthBonus : ℤ
  speedBonus : ℤ
  luckBonus : ℚ
  critBonus : ℚ
  magicBonus : ℤ
  upgradeLevel : ℕ

/-- `Item.stat_total`: damage + armor + health + speed
+ int(luck_bonus * 100) + int(crit_bonus * 100) + magic. -/
def Item.statTotal (it : Item) : ℤ :=
  it.damage + it.armor + it.healthBonus + it.speedBonus
    + pyInt (it.luckBonus * 100) + pyInt (it.critBonus * 100) + it.magicBonus

/-- The pure rarity classifier: the threshold chain of `Item.rarity`
as a function of the stat total. -/
def rarityOfTotal (total : ℤ) : ItemRarity :=
  if 50 ≤ total then .divine
  else if 45 ≤ total then .mythic
  else if 40 ≤ total then .legendary
  else if 30 ≤ total then .magic
  else if 20 ≤ total then .rare
  else if 10 ≤ total then .uncommon
  else .common

/-- `Item.rarity` (property in `classes/items.py`): the threshold chain
applied to `self.stat_total`. -/
def Item.rarity (it : Item) : ItemRarity :=
  rarityOfTotal it.statTotal

/-- `BlacksmithCog._get_item_rarity` (`cogs/blacksmith.py`): recomputes the
total from the item record's fields and applies its own copy of the
threshold chain. -/
def blacksmithItemRarity (it : Item) : ItemRarity :=
  let total : ℤ :=
    it.damage + it.armor + it.healthBonus + it.speedBonus
      + pyInt (it.luckBonus * 100) + pyInt (it.critBonus * 100) + it.magicBonus
  if 50 ≤ total then .divine
  else if 45 ≤ total then .mythic
  else if 40 ≤ total then .legendary
  else if 30 ≤ total then .magic
  else if 20 ≤ total then .rare
  else if 10 ≤ total then .uncommon
  else .common

/-- The tier intervals the spec describes: seven cut points 10/20/30/40/45/50
partitioning the nonnegative totals. (Written from the spec for the
partition statement; compared against `rarityOfTotal`.) -/
def memTier : ItemRarity → ℤ → Prop
  | .common, t => 0 ≤ t ∧ t < 10
  | .uncommon, t => 10 ≤ t ∧ t < 20
  | .rare, t => 20 ≤ t ∧ t < 30
  | .magic, t => 30 ≤ t ∧ t < 40
  | .legendary, t => 40 ≤ t ∧ t < 45
  | .mythic, t => 45 ≤ t ∧ t < 50
  | .divine, t => 50 ≤ t

/-- The stat keys a type-stat dict of `ItemGenerator.get_type_stats` can
carry. -/
inductive StatField
  | damage | armor | health | speed | luck | crit | magic
deriving DecidableEq

/-- The order in which `Item.stat_total` sums the fields. -/
def allStatFields : List StatField :=
  [.damage, .armor, .health, .speed, .luck, .crit, .magic]

/-- `ItemGenerator.get_type_stats`: the per-type stat-distribution dict,
as a total function returning ratio 0 for keys absent from the dict
(absent keys keep the loop's initialisation of 0, and ⌊t·0⌋ = 0).
Ratios are the source's float literals as exact rationals. -/
def getTypeStats : ItemType → StatField → ℚ
  | .sword, .damage => 8/10
  | .sword, .armor => 2/10
  | .axe, .damage => 9/10
  | .axe, .armor => 1/10
  | .dagger, .damage => 85/100
  | .dagger, .armor => 15/100
  | .spear, .damage => 75/100
  | .spear, .armor => 25/100
  | .katana, .damage => 9/10
  | .katana, .armor => 1/10
  | .scythe, .damage => 95/100
  | .scythe, .armor => 5/100
  | .hammer, .damage => 6/10
  | .hammer, .armor => 4/10
  | .mace, .damage => 65/100
  | .mace, .armor => 35/100
  | .knife, .damage => 7/10
  | .knife, .armor => 3/10
  | .bow, .damage => 85/100
  | .bow, .armor => 15/100
  | .crossbow, .damage => 9/10
  | .crossbow, .armor => 1/10
  | .wand, .damage => 8/10
  | .wand, .armor => 2/10
  | .staff, .damage => 7/10
  | .staff, .armor => 3/10
  | .shield, .damage => 1/10
  | .shield, .armor => 9/10
  | .greatsword, .damage => 85/100
  | .greatsword, .armor => 15/100
  | .halberd, .damage => 8/10
  | .halberd, .armor => 2/10
  | .helmet, .armor => 4/10
  | .helmet, .luck => 3/10
  | .helmet, .magic => 2/10
  | .helmet, .health => 1/10
  | .chestplate, .armor => 5/10
  | .chestplate, .health => 4/10
  | .chestplate, .speed => 1/10
  | .leggings, .armor => 6/10
  | .leggings, .health => 3/10
  | .leggings, .speed => 1/10
  | .gauntlets, .armor => 3/10
  | .gauntlets, .crit => 4/10
  | .gauntlets, .speed => 2/10
  | .gauntlets, .magic => 1/10
  | .boots, .armor => 4/10
  | .boots, .speed => 4/10
  | .boots, .luck => 2/10
  | _, _ => 0

/-- `allocated_points = int(total_stats * ratio)` for one stat key. -/
def allocatedPoints (ty : ItemType) (total : ℕ) (s : StatField) : ℤ :=
  pyInt ((total : ℚ) * getTypeStats ty s)

/-- The stat-distribution loop shared (textually duplicated) by
`ItemGenerator.generate_item` and `ItemGenerator.reroll_item`: each stat
key of the type's dict receives `int(total * ratio)` points, luck and
crit being stored divided by 100; every other field stays 0. -/
def distributeStats (ty : ItemType) (total : ℕ) : Item where
  itemType := ty
  damage := allocatedPoints ty total .damage
  armor := allocatedPoints ty total .armor
  healthBonus := allocatedPoints ty total .health
  speedBonus := allocatedPoints ty total .speed
  luckBonus := (allocatedPoints ty total .luck : ℚ) / 100
  critBonus := (allocatedPoints ty total .crit : ℚ) / 100
  magicBonus := allocatedPoints ty total .magic
  upgradeLevel := 0

/-- `ItemGenerator.generate_item`, as a function of the drawn total
budget `totalDraw = randint(max(4, min_stat), max_stat)` (naming, hand,
slot and the value roll are omitted: no claim depends on them). -/
def generateItem (ty : ItemType) (totalDraw : ℕ) : Item :=
  distributeStats ty totalDraw

/-- `ItemGenerator.reroll_item`, as a function of the drawn new total
`newTotal = randint(*ItemRarity.get_stat_range(item.rarity))`: the same
distribution loop over the item's own type. The upgrade level is not
part of the returned stat dict and is preserved. -/
def rerollItem (it : Item) (newTotal : ℕ) : Item :=
  { distributeStats it.itemType newTotal with upgradeLevel := it.upgradeLevel }

/-- `Item._get_upgrade_multiplier`: `1.0 + (0.05 * self.upgrade_level)`. -/
def upgradeMultiplier (lvl : ℕ) : ℚ := 1 + (5/100) * lvl

/-- The upgrade transform applied to one integer stat field:
`int(base_stat * multiplier)`. -/
def effectiveStat (base : ℤ) (lvl : ℕ) : ℤ :=
  pyInt ((base : ℚ) * upgradeMultiplier lvl)

/-- `Item.effective_damage`. -/
def Item.effectiveDamage (it : Item) : ℤ :=
  pyInt ((it.damage : ℚ) * upgradeMultiplier it.upgradeLevel)

/-- `Item.effective_armor`. -/
def Item.effectiveArmor (it : Item) : ℤ :=
  pyInt ((it.armor : ℚ) * upgradeMultiplier it.upgradeLevel)

/-- `Item.effective_health_bonus`. -/
def Item.effectiveHealthBonus (it : Item) : ℤ :=
  pyInt ((it.healthBonus : ℚ) * upgradeMultiplier it.upgradeLevel)

/-- `Item.effective_speed_bonus`. -/
def Item.effectiveSpeedBonus (it : Item) : ℤ :=
  pyInt ((it.speedBonus : ℚ) * upgradeMultiplier it.upgradeLevel)

/-- `Item.effective_magic_bonus`. -/
def Item.effectiveMagicBonus (it : Item) : ℤ :=
  pyInt ((it.magicBonus : ℚ) * upgradeMultiplier it.upgradeLevel)

/-- `Item.effective_luck_bonus` (no `int(...)` in the source). -/
def Item.effectiveLuckBonus (it : Item) : ℚ :=
  it.luckBonus * upgradeMultiplier it.upgradeLevel

/-- `Item.effective_crit_bonus` (no `int(...)` in the source). -/
def Item.effectiveCritBonus (it : Item) : ℚ :=
  it.critBonus * upgradeMultiplier it.upgradeLevel

/-- The success-chance computation of `cogs/adventure.py`
(`adventure` command and `complete_adventure`):
`min(95, 60 + max(0, level - difficulty) * 5 + min(20, equipment_bonus // 10)
+ (luck - 1.0) * 10)`. There is no lower clamp in the source.
`equipPower` is the nonnegative sum of equipped damage + armor, so
Python floor division `// 10` is `Nat` division. -/
def adventureSuccessChance (level difficulty : ℤ) (equipPower : ℕ) (luck : ℚ) : ℚ :=
  min 95 ((60 : ℚ) + (max 0 (level - difficulty) : ℤ) * 5
    + (min 20 (equipPower / 10) : ℕ) + (luck - 1) * 10)

/-- The spec's formula for the same quantity, written from the spec's
words: `clamp(60 + 5*max(0, level-difficulty) + min(20, equipment_power/10)
+ 10*(luck-1.0), 0, 95)` (with the code's integer division for
`equipment_power/10`). Kept separate to compare with the source's
`adventureSuccessChance`. -/
def specClampedSuccessChance (level difficulty : ℤ) (equipPower : ℕ) (luck : ℚ) : ℚ :=
  max 0 (min 95 ((60 : ℚ) + 5 * (max 0 (level - difficulty) : ℤ)
    + (min 20 (equipPower / 10) : ℕ) + 10 * (luck - 1)))

/-- `success = random.random() < success_chance / 100`, as a function of
the uniform draw. -/
def adventureSuccess (chance : ℚ) (draw : ℚ) : Bool :=
  decide (draw < chance / 100)

/-- Sum of `item['damage'] + item['armor']` over a list of equipped items
(used by `calculate_battle_power` and `simulate_battle` in
`cogs/autoplay.py`). -/
def equipmentPower (items : List Item) : ℤ :=
  (items.map (fun it => it.damage + it.armor)).sum

/-- The armor-bonus sum of `AutoPlayCog.simulate_battle`:
`health + speed + int(luck*100) + int(crit*100) + magic` per item. -/
def armorBonusSum (items : List Item) : ℤ :=
  (items.map (fun it =>
    it.healthBonus + it.speedBonus
      + pyInt (it.luckBonus * 100) + pyInt (it.critBonus * 100)
      + it.magicBonus)).sum

/-- `AutoPlayCog.calculate_battle_power` (`cogs/autoplay.py`):
`base_power = level * 10 + Σ(damage + armor) + randint(-20, 20)`, then
`base_power = int(base_power * battle_multiplier)` from any valor
blessing. The `randint(-20, 20)` call happens INSIDE the function; it is
made explicit here as the `draw` argument. -/
def autoplayBattlePower (level : ℤ) (items : List Item) (battleMult : ℚ) (draw : ℤ) : ℤ :=
  pyInt (((level * 10 + equipmentPower items + draw : ℤ) : ℚ) * battleMult)

/-- Per-character power of `AutoPlayCog.simulate_battle`:
`level * 10 + equipment + armor_bonuses + randint(-20, 20)`, with the
internal draw made explicit. -/
def autoplaySimCharPower (level : ℤ) (items : List Item) (draw : ℤ) : ℤ :=
  level * 10 + equipmentPower items + armorBonusSum items + draw

/-- The comparison of `AutoPlayCog.simulate_battle`:
`if char1_power >= char2_power: winner = char1`. Returns `true` when the
first character wins. -/
def autoplaySimFirstWins (l1 : ℤ) (it1 : List Item) (d1 : ℤ)
    (l2 : ℤ) (it2 : List Item) (d2 : ℤ) : Bool :=
  decide (autoplaySimCharPower l2 it2 d2 ≤ autoplaySimCharPower l1 it1 d1)

/-- Winner of a two-fighter simulation. -/
inductive FightWinner
  | first | second
deriving DecidableEq

/-- `CombatCog.simulate_battle` (`cogs/combat.py`): each roll is
`power * uniform(0.8, 1.2)`, multiplied by 1.5 on an independent 10% crit;
`winner = user1 if roll1 > roll2 else user2` — a tie goes to the SECOND
fighter. Draws and crit outcomes are explicit arguments. -/
def combatSimulateWinner (p1 p2 j1 j2 : ℚ) (crit1 crit2 : Bool) : FightWinner :=
  let r1 := p1 * j1 * (if crit1 then 3/2 else 1)
  let r2 := p2 * j2 * (if crit2 then 3/2 else 1)
  if r2 < r1 then .first else .second

/-- The three team-battle sizes of `cogs/autoplay.py`. -/
inductive TeamBattleKind
  | team3 | team5 | team10
deriving DecidableEq

/-- Number of fighters per side. -/
def teamSize : TeamBattleKind → ℕ
  | .team3 => 3
  | .team5 => 5
  | .team10 => 10

/-- Lower bound of the per-side uniform jitter
(`uniform(0.85, 1.15)` / `uniform(0.8, 1.2)` / `uniform(0.75, 1.25)` in
`run_3v3_battle`, `run_5v5_battle`, `run_10v10_battle`). -/
def jitterLo : TeamBattleKind → ℚ
  | .team3 => 85/100
  | .team5 => 80/100
  | .team10 => 75/100

/-- Upper bound of the per-side uniform jitter. -/
def jitterHi : TeamBattleKind → ℚ
  | .team3 => 115/100
  | .team5 => 120/100
  | .team10 => 125/100

/-- Width of the jitter interval. -/
def jitterWidth (k : TeamBattleKind) : ℚ := jitterHi k - jitterLo k

/-- The fixed coordination multiplier applied to each side's roll
(`* 0.8` / `* 0.75` / `* 0.65` in the three battle runners). -/
def coordinationPenalty : TeamBattleKind → ℚ
  | .team3 => 80/100
  | .team5 => 75/100
  | .team10 => 65/100

/-- One side's adjusted roll:
`team_power * uniform(lo, hi) * penalty`. -/
def teamRoll (k : TeamBattleKind) (power jitter : ℚ) : ℚ :=
  power * jitter * coordinationPenalty k

/-- `winning_team = team_a if team_a_roll > team_b_roll else team_b`:
`true` when side A wins. -/
def teamBattleWinnerIsA (k : TeamBattleKind) (powA powB jA jB : ℚ) : Bool :=
  decide (teamRoll k powB jB < teamRoll k powA jA)

/-- The externally visible store operations a completion handler performs
for one work unit: applying the currency/xp reward
(`db.update_character` with money/xp deltas), creating a reward item
(`db.create_item`), and the terminal status write
(`UPDATE ... SET status = 'completed'`). -/
inductive EngineEvent
  | rewardXpGold
  | rewardItem
  | setCompleted
deriving DecidableEq

/-- The store-operation order of `AutoPlayCog.level_up_check`
(`cogs/autoplay.py`) for one completed adventure: `update_character`
applying xp/gold (and the level recomputation), then the
`UPDATE adventures SET status = 'completed'`, then — on the 40% item
roll — `create_item`. Both the multi-completion and the
single-completion branch perform the operations in this order. -/
def levelUpCheckUnitEvents (itemDrop : Bool) : List EngineEvent :=
  [.rewardXpGold, .setCompleted] ++ (if itemDrop then [.rewardItem] else [])

/-- The store-operation order of `EpicAdventuresCog.check_epic_completions`
(`cogs/epic_adventures.py`) for one finished epic/legendary adventure:
on success, `update_character` with the xp/gold reward followed by
`create_item` for each of the `numItems` generated items; on failure,
`update_character` with the consolation reward; in both branches the
`UPDATE epic_adventures SET status = 'completed'` comes LAST. -/
def checkEpicCompletionsUnitEvents (success : Bool) (numItems : ℕ) : List EngineEvent :=
  (if success then [EngineEvent.rewardXpGold] ++ List.replicate numItems .rewardItem
   else [EngineEvent.rewardXpGold]) ++ [.setCompleted]

/-- The property claimed of a handler trace: every reward operation comes
strictly after every terminal-status write. -/
def rewardsOnlyAfterFinalize (tr : List EngineEvent) : Prop :=
  ∀ i j : Fin tr.length,
    (tr.get i = .rewardXpGold ∨ tr.get i = .rewardItem) →
    tr.get j = .setCompleted → j < i

instance (tr : List EngineEvent) : Decidable (rewardsOnlyAfterFinalize tr) := by
  unfold rewardsOnlyAfterFinalize
  infer_instance

/-- Some reward operation comes strictly before some terminal-status
write in the trace. -/
def rewardBeforeFinalize (tr : List EngineEvent) : Prop :=
  ∃ pre mid post, tr = pre ++ [EngineEvent.rewardXpGold] ++ mid ++ [EngineEvent.setCompleted] ++ post

/-- The active-epic-adventure claim step of
`EpicAdventuresCog.auto_epic_adventures` (`cogs/epic_adventures.py`) for
one selected character: the handler re-reads
`SELECT id FROM epic_adventures WHERE user_id = ? AND status = 'active'`
and, if a row exists, skips the insert; otherwise it inserts one new
active row. The state is the list of owners of active epic work units. -/
def epicClaim (active : List ℤ) (uid : ℤ) : List ℤ :=
  if uid ∈ active then active else uid :: active

/-- One tick of `AutoPlayCog.auto_adventure_loop` (`cogs/autoplay.py`):
the SQL selection returns only users with no active adventure row, and
`random.sample` picks them without replacement, so the inserted batch is
duplicate-free and disjoint from the active set. The tick inserts one
active row per selected user. -/
def adventureTickInsert (active : List ℤ) (selected : List ℤ) : List ℤ :=
  selected ++ active

/-- States of the active-epic-unit store reachable through the code's
operations: empty at start, a claim step (guarded insert) by
`auto_epic_adventures`, and a finalize step removing a row
(`check_epic_completions` marking it completed). -/
inductive EpicReachable : List ℤ → Prop
  | init : EpicReachable []
  | claim (st : List ℤ) (uid : ℤ) : EpicReachable st → EpicReachable (epicClaim st uid)
  | finalize (st : List ℤ) (uid : ℤ) : EpicReachable st → EpicReachable (st.erase uid)

/-- Concrete item used when evaluating the reroll slip: an Uncommon
scythe (stat total 10, entirely damage), e.g. as produced by
`generate_item` for a Scythe with total budget 11. -/
def scytheUncommonExample : Item :=
  ⟨.scythe, 10, 0, 0, 0, 0, 0, 0, 0⟩

/-! ## Helper lemmas -/

theorem pyInt_intCast (a : ℤ) : pyInt (a : ℚ) = a := by
  unfold pyInt
  by_cases h : (0 : ℚ) ≤ (a : ℚ)
  · rw [if_pos h, Int.floor_intCast]
  · rw [if_neg h]
    rw [show (-(a : ℚ)) = ((-a : ℤ) : ℚ) by push_cast; ring, Int.floor_intCast]
    ring

theorem pyInt_eq_floor_of_nonneg {q : ℚ} (h : 0 ≤ q) : pyInt q = ⌊q⌋ := by
  unfold pyInt
  rw [if_pos h]

theorem pyInt_le_of_nonneg {q : ℚ} (h : 0 ≤ q) : (pyInt q : ℚ) ≤ q := by
  rw [pyInt_eq_floor_of_nonneg h]
  exact Int.floor_le q

theorem pyInt_nonneg {q : ℚ} (h : 0 ≤ q) : 0 ≤ pyInt q := by
  rw [pyInt_eq_floor_of_nonneg h]
  exact Int.floor_nonneg.mpr h

theorem pyInt_coe_div_hundred_mul (a : ℤ) : pyInt ((a : ℚ) / 100 * 100) = a := by
  rw [div_mul_cancel₀ _ (by norm_num : (100 : ℚ) ≠ 0)]
  exact pyInt_intCast a

theorem getTypeStats_nonneg (ty : ItemType) (s : StatField) : 0 ≤ getTypeStats ty s := by
  cases ty <;> cases s <;> norm_num [getTypeStats]

theorem getTypeStats_sum_eq_one (ty : ItemType) :
    getTypeStats ty .damage + getTypeStats ty .armor + getTypeStats ty .health
      + getTypeStats ty .speed + getTypeStats ty .luck + getTypeStats ty .crit
      + getTypeStats ty .magic = 1 := by
  cases ty <;> norm_num [getTypeStats]

theorem allocatedPoints_le (ty : ItemType) (t : ℕ) (s : StatField) :
    (allocatedPoints ty t s : ℚ) ≤ (t : ℚ) * getTypeStats ty s := by
  have h : (0 : ℚ) ≤ (t : ℚ) * getTypeStats ty s :=
    mul_nonneg (by positivity) (getTypeStats_nonneg ty s)
  exact pyInt_le_of_nonneg h

theorem statTotal_distributeStats (ty : ItemType) (t : ℕ) :
    (distributeStats ty t).statTotal
      = allocatedPoints ty t .damage + allocatedPoints ty t .armor
        + allocatedPoints ty t .health + allocatedPoints ty t .speed
        + allocatedPoints ty t .luck + allocatedPoints ty t .crit
        + allocatedPoints ty t .magic := by
  show allocatedPoints ty t .damage + allocatedPoints ty t .armor
      + allocatedPoints ty t .health + allocatedPoints ty t .speed
      + pyInt ((allocatedPoints ty t .luck : ℚ) / 100 * 100)
      + pyInt ((allocatedPoints ty t .crit : ℚ) / 100 * 100)
      + allocatedPoints ty t .magic = _
  rw [pyInt_coe_div_hundred_mul, pyInt_coe_div_hundred_mul]

theorem statTotal_distributeStats_le (ty : ItemType) (t : ℕ) :
    (distributeStats ty t).statTotal ≤ (t : ℤ) := by
  rw [statTotal_distributeStats]
  have hd := allocatedPoints_le ty t .damage
  have ha := allocatedPoints_le ty t .armor
  have hh := allocatedPoints_le ty t .health
  have hs := allocatedPoints_le ty t .speed
  have hl := allocatedPoints_le ty t .luck
  have hc := allocatedPoints_le ty t .crit
  have hm := allocatedPoints_le ty t .magic
  have hsum := getTypeStats_sum_eq_one ty
  have hq : ((allocatedPoints ty t .damage + allocatedPoints ty t .armor
      + allocatedPoints ty t .health + allocatedPoints ty t .speed
      + allocatedPoints ty t .luck + allocatedPoints ty t .crit
      + allocatedPoints ty t .magic : ℤ) : ℚ) ≤ (t : ℚ) := by
    push_cast
    calc (allocatedPoints ty t .damage : ℚ) + allocatedPoints ty t .armor
        + allocatedPoints ty t .health + allocatedPoints ty t .speed
        + allocatedPoints ty t .luck + allocatedPoints ty t .crit
        + allocatedPoints ty t .magic
        ≤ (t : ℚ) * getTypeStats ty .damage + (t : ℚ) * getTypeStats ty .armor
          + (t : ℚ) * getTypeStats ty .health + (t : ℚ) * getTypeStats ty .speed
          + (t : ℚ) * getTypeStats ty .luck + (t : ℚ) * getTypeStats ty .crit
          + (t : ℚ) * getTypeStats ty .magic := by
            gcongr
      _ = (t : ℚ) * (getTypeStats ty .damage + getTypeStats ty .armor
          + getTypeStats ty .health + getTypeStats ty .speed + getTypeStats ty .luck
          + getTypeStats ty .crit + getTypeStats ty .magic) := by ring
      _ = (t : ℚ) * 1 := by rw [hsum]
      _ = (t : ℚ) := by ring
  exact_mod_cast hq

theorem rarityOfTotal_idx_mono {t u : ℤ} (h : t ≤ u) :
    (rarityOfTotal t).idx ≤ (rarityOfTotal u).idx := by
  unfold rarityOfTotal
  split_ifs <;> simp only [ItemRarity.idx] <;> omega

theorem rarityOfTotal_statRange_hi (r : ItemRarity) :
    rarityOfTotal (r.statRange).2 = r := by
  cases r <;> norm_num [ItemRarity.statRange, rarityOfTotal]

theorem rarityOfTotal_idx_le_of_le_hi {t : ℤ} {r : ItemRarity}
    (h : t ≤ (r.statRange).2) : (rarityOfTotal t).idx ≤ r.idx := by
  have := rarityOfTotal_idx_mono h
  rwa [rarityOfTotal_statRange_hi] at this

/-! ## Claim theorems -/

/-- C10: for every item type and every rolled total budget, the generated
item's stat total never exceeds the rolled total (each field being
`int(total * ratio)` with the type's ratios summing to 1); and the
produced total can be strictly below the rolled total and below a forced
rarity's minimum (a Helmet generated at the Mythic minimum budget 45
totals only 44). -/
theorem c10_generator_total_bound :
    (∀ (ty : ItemType) (t : ℕ), (generateItem ty t).statTotal ≤ (t : ℤ))
    ∧ (generateItem .helmet 45).statTotal = 44
    ∧ (ItemRarity.statRange .mythic).1 = 45 ∧ (44 : ℤ) < 45 := by
  refine ⟨fun ty t => statTotal_distributeStats_le ty t, ?_, by norm_num [ItemRarity.statRange], by norm_num⟩
  norm_num [generateItem, distributeStats, allocatedPoints, getTypeStats, pyInt,
    Item.statTotal]

/-- C3: evaluation at the failing input. `scytheUncommonExample` is an
Uncommon item (stat total 10); the reroll draw 10 is inside the Uncommon
stat range (10, 19) that `reroll_item` samples from, yet the rerolled
stats total 9 = int(10 * 0.95) + int(10 * 0.05) and classify as Common —
the reroll does NOT preserve the rarity tier. -/
theorem c3_reroll_drops_tier :
    scytheUncommonExample.rarity = .uncommon
    ∧ (ItemRarity.statRange .uncommon).1 = 10
    ∧ (10 : ℤ) ≤ (ItemRarity.statRange .uncommon).2
    ∧ (rerollItem scytheUncommonExample 10).rarity = .common
    ∧ ItemRarity.common ≠ ItemRarity.uncommon := by
  refine ⟨?_, by norm_num [ItemRarity.statRange], by norm_num [ItemRarity.statRange], ?_, by simp⟩
  · norm_num [scytheUncommonExample, Item.rarity, rarityOfTotal, Item.statTotal, pyInt]
  · norm_num [rerollItem, scytheUncommonExample, Item.rarity, rarityOfTotal,
      distributeStats, allocatedPoints, getTypeStats, pyInt, Item.statTotal]

/-- C5: the rarity classifier is monotone in the stat total; the twelve
boundary totals resolve to the documented tiers; for nonnegative totals
the seven tiers partition `[0, ∞)` (classifying to a tier is equivalent
to lying in that tier's interval, so there are no gaps or overlaps at
the cut points 10/20/30/40/45/50); and the blacksmith subsystem's
duplicated classifier `_get_item_rarity` agrees with `Item.rarity` on
every item. -/
theorem c5_rarity_classifier :
    (∀ t u : ℤ, t ≤ u → (rarityOfTotal t).idx ≤ (rarityOfTotal u).idx)
    ∧ (rarityOfTotal 9 = .common ∧ rarityOfTotal 10 = .uncommon
      ∧ rarityOfTotal 19 = .uncommon ∧ rarityOfTotal 20 = .rare
      ∧ rarityOfTotal 29 = .rare ∧ rarityOfTotal 30 = .magic
      ∧ rarityOfTotal 39 = .magic ∧ rarityOfTotal 40 = .legendary
      ∧ rarityOfTotal 44 = .legendary ∧ rarityOfTotal 45 = .mythic
      ∧ rarityOfTotal 49 = .mythic ∧ rarityOfTotal 50 = .divine)
    ∧ (∀ t : ℤ, 0 ≤ t → ∀ r : ItemRarity, rarityOfTotal t = r ↔ memTier r t)
    ∧ (∀ it : Item, blacksmithItemRarity it = it.rarity)
    ∧ (∀ it : Item, it.rarity = rarityOfTotal it.statTotal) := by
  refine ⟨fun t u h => rarityOfTotal_idx_mono h, ?_, ?_, fun it => rfl, fun it => rfl⟩
  · norm_num [rarityOfTotal]
  · intro t ht r
    unfold rarityOfTotal
    split_ifs <;> cases r <;> simp_all [memTier] <;> omega

/-- C5 witness: the classifier parts applied at concrete totals. -/
theorem c5_witness :
    (rarityOfTotal 12).idx ≤ (rarityOfTotal 47).idx
    ∧ (rarityOfTotal 0 = .common ↔ memTier .common 0) :=
  ⟨c5_rarity_classifier.1 12 47 (by norm_num),
   c5_rarity_classifier.2.2.1 0 (by norm_num) .common⟩

/-- C4 counterexample: at upgrade level 10 an odd base stat is NOT
exactly 1.5 times the base — a base damage of 9 upgrades to
`int(9 * 1.5) = 13`, while 1.5 × 9 = 13.5. -/
theorem c4_counterexample :
    effectiveStat 9 10 = 13 ∧ ((13 : ℚ) ≠ 3/2 * ((9 : ℤ) : ℚ)) := by
  constructor
  · norm_num [effectiveStat, upgradeMultiplier, pyInt]
  · norm_num

/-- C4 (amended): the upgrade transform `int(base * (1 + 0.05 * level))`
is non-decreasing in the level over the capped range 0–10 for every
nonnegative base stat; level 0 is the identity; the level-10 multiplier
is exactly 1.5 and the level-10 value is `floor(1.5 * base)` — exactly
1.5 × base only when the base is even (and always for the float-valued
luck/crit fields, which are not truncated). Each `effective_*` property
of `Item` is this transform applied to its field. -/
theorem c4_upgrade_transform :
    (∀ b : ℤ, 0 ≤ b → ∀ k l : ℕ, k ≤ l → l ≤ 10 →
      effectiveStat b k ≤ effectiveStat b l)
    ∧ (∀ b : ℤ, effectiveStat b 0 = b)
    ∧ upgradeMultiplier 10 = 3/2
    ∧ (∀ b : ℤ, 0 ≤ b →
        2 * effectiveStat b 10 = 3 * b ∨ 2 * effectiveStat b 10 = 3 * b - 1)
    ∧ (∀ b : ℤ, 0 ≤ b → b % 2 = 0 → (effectiveStat b 10 : ℚ) = 3/2 * (b : ℚ))
    ∧ (∀ it : Item, it.effectiveDamage = effectiveStat it.damage it.upgradeLevel
        ∧ it.effectiveArmor = effectiveStat it.armor it.upgradeLevel
        ∧ it.effectiveHealthBonus = effectiveStat it.healthBonus it.upgradeLevel
        ∧ it.effectiveSpeedBonus = effectiveStat it.speedBonus it.upgradeLevel
        ∧ it.effectiveMagicBonus = effectiveStat it.magicBonus it.upgradeLevel)
    ∧ (∀ it : Item, it.upgradeLevel = 10 →
        it.effectiveLuckBonus = 3/2 * it.luckBonus
        ∧ it.effectiveCritBonus = 3/2 * it.critBonus) := by
  have hmul10 : upgradeMultiplier 10 = 3/2 := by
    unfold upgradeMultiplier
    norm_num
  have heven : ∀ b : ℤ, 0 ≤ b → b % 2 = 0 → effectiveStat b 10 = 3 * (b / 2) := by
    intro b _ hb2
    obtain ⟨m, hm⟩ : ∃ m, b = 2 * m := ⟨b / 2, by omega⟩
    subst hm
    have harg : ((2 * m : ℤ) : ℚ) * upgradeMultiplier 10 = ((3 * m : ℤ) : ℚ) := by
      rw [hmul10]
      push_cast
      ring
    rw [effectiveStat, harg, pyInt_intCast]
    omega
  have hodd : ∀ b : ℤ, 0 ≤ b → b % 2 = 1 → effectiveStat b 10 = 3 * (b / 2) + 1 := by
    intro b hb hb2
    obtain ⟨m, hm⟩ : ∃ m, b = 2 * m + 1 := ⟨b / 2, by omega⟩
    subst hm
    have harg : ((2 * m + 1 : ℤ) : ℚ) * upgradeMultiplier 10
        = ((3 * m + 1 : ℤ) : ℚ) + 1/2 := by
      rw [hmul10]
      push_cast
      ring
    have hnn : (0 : ℚ) ≤ ((2 * m + 1 : ℤ) : ℚ) * upgradeMultiplier 10 := by
      rw [hmul10]
      have : (0 : ℚ) ≤ ((2 * m + 1 : ℤ) : ℚ) := by exact_mod_cast hb
      linarith
    rw [effectiveStat, pyInt_eq_floor_of_nonneg hnn, harg, Int.floor_int_add]
    norm_num
    omega
  refine ⟨?_, ?_, hmul10, ?_, ?_, fun it => ⟨rfl, rfl, rfl, rfl, rfl⟩, ?_⟩
  · intro b hb k l hkl _
    have hbq : (0 : ℚ) ≤ (b : ℚ) := by exact_mod_cast hb
    have hmk : (0 : ℚ) ≤ upgradeMultiplier k := by
      unfold upgradeMultiplier
      positivity
    have hml : upgradeMultiplier k ≤ upgradeMultiplier l := by
      unfold upgradeMultiplier
      have : (k : ℚ) ≤ (l : ℚ) := by exact_mod_cast hkl
      linarith
    have h1 : (0 : ℚ) ≤ (b : ℚ) * upgradeMultiplier k := mul_nonneg hbq hmk
    have h2 : (0 : ℚ) ≤ (b : ℚ) * upgradeMultiplier l :=
      mul_nonneg hbq (le_trans hmk hml)
    rw [effectiveStat, effectiveStat, pyInt_eq_floor_of_nonneg h1,
      pyInt_eq_floor_of_nonneg h2]
    exact Int.floor_le_floor (mul_le_mul_of_nonneg_left hml hbq)
  · intro b
    have harg : ((b : ℤ) : ℚ) * upgradeMultiplier 0 = ((b : ℤ) : ℚ) := by
      unfold upgradeMultiplier
      push_cast
      ring
    rw [effectiveStat, harg, pyInt_intCast]
  · intro b hb
    rcases Int.emod_two_eq_zero_or_one b with h2 | h2
    · left
      rw [heven b hb h2]
      omega
    · right
      rw [hodd b hb h2]
      omega
  · intro b hb h2
    rw [heven b hb h2]
    obtain ⟨m, hm⟩ : ∃ m, b = 2 * m := ⟨b / 2, by omega⟩
    subst hm
    push_cast [Int.mul_ediv_cancel_left _ (by norm_num : (2 : ℤ) ≠ 0)]
    ring
  · intro it h10
    unfold Item.effectiveLuckBonus Item.effectiveCritBonus
    rw [h10, hmul10]
    constructor <;> ring

/-- C4 witness: the monotonicity, parity and even-base parts applied at
concrete inputs. -/
theorem c4_witness :
    effectiveStat 4 2 ≤ effectiveStat 4 3
    ∧ (2 * effectiveStat 7 10 = 3 * 7 ∨ 2 * effectiveStat 7 10 = 3 * 7 - 1)
    ∧ (effectiveStat 6 10 : ℚ) = 3/2 * ((6 : ℤ) : ℚ) :=
  ⟨c4_upgrade_transform.1 4 (by norm_num) 2 3 (by norm_num) (by norm_num),
   c4_upgrade_transform.2.2.2.1 7 (by norm_num),
   c4_upgrade_transform.2.2.2.2.1 6 (by norm_num) (by norm_num)⟩

/-- C6 counterexample: for a level-1 participant with no equipment, luck
1.0 and a difficulty-1 adventure, the code computes a success chance of
60 (= 60 base + 0 + 0 + 0), not the claimed 65. -/
theorem c6_counterexample :
    adventureSuccessChance 1 1 0 1 = 60 ∧ adventureSuccessChance 1 1 0 1 ≠ 65 := by
  have h : adventureSuccessChance 1 1 0 1 = 60 := by
    norm_num [adventureSuccessChance]
  exact ⟨h, by rw [h]; norm_num⟩

/-- C6 (amended): the scenario's success chance is exactly 60% (60 base
+ 0 level bonus + 0 equipment + 0 luck); a fixed uniform draw of 0.50
yields success and 0.70 yields failure; and the code's formula
`min(95, ...)` agrees with the spec's `clamp(..., 0, 95)` whenever
luck ≥ 0 (the code has no lower clamp, but the sum is then ≥ 50). -/
theorem c6_adventure_scenario :
    adventureSuccessChance 1 1 0 1 = 60
    ∧ adventureSuccess (adventureSuccessChance 1 1 0 1) (1/2) = true
    ∧ adventureSuccess (adventureSuccessChance 1 1 0 1) (7/10) = false
    ∧ (∀ (level difficulty : ℤ) (equipPower : ℕ) (luck : ℚ), 0 ≤ luck →
        adventureSuccessChance level difficulty equipPower luck
          = specClampedSuccessChance level difficulty equipPower luck) := by
  have h60 : adventureSuccessChance 1 1 0 1 = 60 := by
    norm_num [adventureSuccessChance]
  refine ⟨h60, ?_, ?_, ?_⟩
  · rw [h60]
    norm_num [adventureSuccess]
  · rw [h60]
    norm_num [adventureSuccess]
  · intro l d e luck hl
    unfold adventureSuccessChance specClampedSuccessChance
    have hAB : (60 : ℚ) + 5 * ((max 0 (l - d) : ℤ) : ℚ) + ((min 20 (e / 10) : ℕ) : ℚ)
        + 10 * (luck - 1)
        = 60 + ((max 0 (l - d) : ℤ) : ℚ) * 5 + ((min 20 (e / 10) : ℕ) : ℚ)
          + (luck - 1) * 10 := by ring
    rw [hAB]
    have h1 : (0 : ℚ) ≤ ((max 0 (l - d) : ℤ) : ℚ) := by
      exact_mod_cast le_max_left 0 (l - d)
    have h2 : (0 : ℚ) ≤ ((min 20 (e / 10) : ℕ) : ℚ) := by positivity
    have h0 : (0 : ℚ) ≤ min 95 ((60 : ℚ) + ((max 0 (l - d) : ℤ) : ℚ) * 5
        + ((min 20 (e / 10) : ℕ) : ℚ) + (luck - 1) * 10) := by
      apply le_min (by norm_num)
      nlinarith
    exact (max_eq_right h0).symm

/-- C6 witness: the min/clamp agreement applied at the scenario input. -/
theorem c6_witness :
    adventureSuccessChance 1 1 0 1 = specClampedSuccessChance 1 1 0 1 :=
  c6_adventure_scenario.2.2.2 1 1 0 1 (by norm_num)

/-- C7 counterexample: `AutoPlayCog.calculate_battle_power` draws
`randint(-20, 20)` inside the function, so two evaluations over the same
participant state (level 1, no items, no valor blessing) can return -10
and 30. -/
theorem c7_counterexample :
    autoplayBattlePower 1 [] 1 (-20) = -10
    ∧ autoplayBattlePower 1 [] 1 20 = 30
    ∧ autoplayBattlePower 1 [] 1 (-20) ≠ autoplayBattlePower 1 [] 1 20 := by
  have ha : autoplayBattlePower 1 [] 1 (-20) = -10 := by
    norm_num [autoplayBattlePower, equipmentPower, pyInt]
  have hb : autoplayBattlePower 1 [] 1 20 = 30 := by
    norm_num [autoplayBattlePower, equipmentPower, pyInt]
  exact ⟨ha, hb, by rw [ha, hb]; norm_num⟩

/-- C7 (amended): with the internal `randint(-20, 20)` draw made an
explicit input, `AutoPlayCog.calculate_battle_power` (with no valor
blessing, multiplier 1) is exactly `level * 10 + Σ(damage + armor) +
draw` — deterministic given the state AND the draw, but dependent on the
draw, which the source samples inside the function rather than taking
from the caller. -/
theorem c7_power_draw_dependence :
    ∀ (level : ℤ) (items : List Item) (draw : ℤ),
      autoplayBattlePower level items 1 draw
        = level * 10 + equipmentPower items + draw := by
  intro level items draw
  unfold autoplayBattlePower
  rw [mul_one, pyInt_intCast]

/-- C8 counterexample: the jitter interval is 0.30 wide for 3v3,
0.40 for 5v5 and 0.50 for 10v10 — it WIDENS as the team grows, refuting
the claim that the uniform jitter range is narrower for larger teams. -/
theorem c8_counterexample :
    ¬ (jitterWidth .team5 < jitterWidth .team3)
    ∧ jitterWidth .team3 < jitterWidth .team5
    ∧ jitterWidth .team5 < jitterWidth .team10 := by
  norm_num [jitterWidth, jitterLo, jitterHi]

/-- C8 (amended): each side's aggregate power is multiplied by an
independent uniform jitter and by a fixed coordination penalty < 1 that
decreases as the team grows (0.8 / 0.75 / 0.65), and the side with the
strictly higher adjusted roll wins (an exact tie goes to side B); but
the jitter range WIDENS with team size ([0.85,1.15] / [0.8,1.2] /
[0.75,1.25]) rather than narrowing. -/
theorem c8_team_battle :
    (∀ k, coordinationPenalty k < 1)
    ∧ (∀ k l, teamSize k < teamSize l → coordinationPenalty l < coordinationPenalty k)
    ∧ (∀ k l, teamSize k < teamSize l → jitterWidth k < jitterWidth l)
    ∧ (∀ k (pA pB jA jB : ℚ), teamRoll k pB jB < teamRoll k pA jA →
        teamBattleWinnerIsA k pA pB jA jB = true)
    ∧ (∀ k (pA pB jA jB : ℚ), teamRoll k pA jA ≤ teamRoll k pB jB →
        teamBattleWinnerIsA k pA pB jA jB = false) := by
  refine ⟨?_, ?_, ?_, ?_, ?_⟩
  · intro k
    cases k <;> norm_num [coordinationPenalty]
  · intro k l h
    cases k <;> cases l <;> revert h <;>
      norm_num [teamSize, coordinationPenalty]
  · intro k l h
    cases k <;> cases l <;> revert h <;>
      norm_num [teamSize, jitterWidth, jitterLo, jitterHi]
  · intro k pA pB jA jB h
    simp only [teamBattleWinnerIsA, decide_eq_true_eq]
    exact h
  · intro k pA pB jA jB h
    simp only [teamBattleWinnerIsA, decide_eq_false_iff_not]
    exact not_lt.mpr h

/-- C8 witness: the penalty/width monotonicity and the comparison rule
applied at concrete team sizes and rolls. -/
theorem c8_witness :
    coordinationPenalty .team10 < coordinationPenalty .team3
    ∧ jitterWidth .team3 < jitterWidth .team10
    ∧ teamBattleWinnerIsA .team3 2 1 1 1 = true :=
  ⟨c8_team_battle.2.1 .team3 .team10 (by norm_num [teamSize]),
   c8_team_battle.2.2.1 .team3 .team10 (by norm_num [teamSize]),
   c8_team_battle.2.2.2.1 .team3 2 1 1 1
     (by norm_num [teamRoll, coordinationPenalty])⟩

/-- C9 counterexample: with equal powers 100 and 100, equal jitter draws
(1.0, 1.0) and no crits, `CombatCog.simulate_battle` resolves the tie to
the SECOND fighter (its comparison is strict `roll1 > roll2`), refuting
the claim that the first participant wins ties. -/
theorem c9_counterexample :
    combatSimulateWinner 100 100 1 1 false false = .second
    ∧ FightWinner.second ≠ FightWinner.first := by
  constructor
  · norm_num [combatSimulateWinner]
  · simp

/-- C9 (amended): both simulators break ties deterministically, but they
disagree: `AutoPlayCog.simulate_battle` compares with `>=` and awards an
exact power tie to the FIRST character, while `CombatCog.simulate_battle`
compares with `>` and awards an exact roll tie to the SECOND fighter. -/
theorem c9_tie_break :
    (∀ (l1 l2 : ℤ) (it1 it2 : List Item) (d1 d2 : ℤ),
      autoplaySimCharPower l1 it1 d1 = autoplaySimCharPower l2 it2 d2 →
      autoplaySimFirstWins l1 it1 d1 l2 it2 d2 = true)
    ∧ (∀ p1 p2 j1 j2 : ℚ, p1 * j1 = p2 * j2 →
        combatSimulateWinner p1 p2 j1 j2 false false = .second) := by
  constructor
  · intro l1 l2 it1 it2 d1 d2 h
    simp only [autoplaySimFirstWins, decide_eq_true_eq]
    exact le_of_eq h.symm
  · intro p1 p2 j1 j2 h
    unfold combatSimulateWinner
    simp only [Bool.false_eq_true, if_false, mul_one]
    rw [if_neg (by rw [h]; exact lt_irrefl _)]

/-- C9 witness: the two tie rules applied to concrete tied fights. -/
theorem c9_witness :
    autoplaySimFirstWins 1 [] 0 1 [] 0 = true
    ∧ combatSimulateWinner 50 50 1 1 false false = FightWinner.second :=
  ⟨c9_tie_break.1 1 1 [] [] 0 0 rfl,
   c9_tie_break.2 50 50 1 1 (by norm_num)⟩

/-- C1 counterexample: the claim ("rewards only after the status
transition") fails on the code's own operation order — in
`level_up_check` (no item roll) and in `check_epic_completions`
(success, one item) the xp/gold reward write precedes the
`status = 'completed'` write. -/
theorem c1_counterexample :
    ¬ rewardsOnlyAfterFinalize (levelUpCheckUnitEvents false)
    ∧ ¬ rewardsOnlyAfterFinalize (checkEpicCompletionsUnitEvents true 1) := by
  decide

/-- C1 (amended): in both completion handlers the currency/xp reward is
applied BEFORE — not after — the transition of the unit out of
`'active'`: every trace contains exactly one `status = 'completed'`
write, and the xp/gold reward write occurs strictly before it (in the
epic handler the item creations also precede it; only the regular
handler's bonus item follows it). -/
theorem c1_reward_order :
    ∀ (itemDrop success : Bool) (numItems : ℕ),
      (levelUpCheckUnitEvents itemDrop).count .setCompleted = 1
      ∧ (checkEpicCompletionsUnitEvents success numItems).count .setCompleted = 1
      ∧ rewardBeforeFinalize (levelUpCheckUnitEvents itemDrop)
      ∧ rewardBeforeFinalize (checkEpicCompletionsUnitEvents success numItems) := by
  intro d s n
  refine ⟨?_, ?_, ?_, ?_⟩
  · cases d <;> decide
  · cases s <;>
      simp [checkEpicCompletionsUnitEvents, List.count_append, List.count_replicate,
        List.count_cons, List.count_nil, List.count_singleton]
  · cases d
    · exact ⟨[], [], [], rfl⟩
    · exact ⟨[], [], [.rewardItem], rfl⟩
  · cases s
    · exact ⟨[], [], [], rfl⟩
    · exact ⟨[], List.replicate n .rewardItem, [], by
        simp [checkEpicCompletionsUnitEvents]⟩

/-- C2: in the model of the store's active work units, every state
reachable through the code's claim and finalize steps holds at most one
active epic unit per participant (the owner list stays duplicate-free);
a claim attempt for a participant who already has an active unit is a
no-op; and one tick of the regular adventure loop — which inserts one
row per selected user, the selection being duplicate-free and excluding
users with an active row — preserves the invariant. -/
theorem c2_claim_exclusivity :
    (∀ st, EpicReachable st → st.Nodup)
    ∧ (∀ (st : List ℤ) (uid : ℤ), uid ∈ st → epicClaim st uid = st)
    ∧ (∀ (st sel : List ℤ), st.Nodup → sel.Nodup →
        (∀ u ∈ sel, u ∉ st) → (adventureTickInsert st sel).Nodup) := by
  refine ⟨?_, ?_, ?_⟩
  · intro st h
    induction h with
    | init => exact List.nodup_nil
    | claim st uid _ ih =>
        unfold epicClaim
        by_cases hm : uid ∈ st
        · rwa [if_pos hm]
        · rw [if_neg hm]
          exact List.nodup_cons.mpr ⟨hm, ih⟩
    | finalize st uid _ ih => exact ih.erase uid
  · intro st uid h
    unfold epicClaim
    rw [if_pos h]
  · intro st sel h1 h2 h3
    unfold adventureTickInsert
    exact List.nodup_append.mpr ⟨h2, h1, fun a ha hb => h3 a ha hb⟩

/-- C2 witness: the invariant at a reachable state, a duplicate claim
attempt no-op, and a disjoint adventure-tick insert, at concrete
states. -/
theorem c2_witness :
    ([] : List ℤ).Nodup ∧ epicClaim [5] 5 = [5]
    ∧ (adventureTickInsert [1] [2]).Nodup :=
  ⟨c2_claim_exclusivity.1 [] EpicReachable.init,
   c2_claim_exclusivity.2.1 [5] 5 (by simp),
   c2_claim_exclusivity.2.2 [1] [2] (by simp) (by simp) (by simp)⟩
